import Mathlib

/-!
Verification development for the retrieval-augmented chat backend.

The embedding below models the streaming inference client
(`stream_chat`, `stream_complete`, `astream_complete` in
`backend/app/clients/llm_client.py`), the context assembler and message
sequence builder (`backend/app/api/api_utils.py`) and the chat relay
orchestrator (`chat` / `event_generator` in
`backend/app/api/routers/chat.py`).

External collaborators are modelled as parameters:
`parse : String → Option Json` stands for `json.loads` (returning `none`
exactly when the library would raise `JSONDecodeError`),
`retrieve : String → List Passage` stands for the retrieval oracle behind
`index.as_retriever(similarity_top_k=2).retrieve`, and the HTTP layer is
given as the list of lines of the response body.  Python dynamic failures
(`TypeError`, `AttributeError`, `IndexError`, `ValueError`) that the
source can hit on ill-shaped frames are collapsed into a single
`typeError` outcome; `JSONDecodeError` is the `malformed` outcome and
carries the string that was handed to `json.loads`.
-/

/-- A decoded JSON value, the result type of `json.loads`. -/
inductive Json where
  | null : Json
  | bool (b : Bool) : Json
  | num (n : Int) : Json
  | str (s : String) : Json
  | arr (xs : List Json) : Json
  | obj (kvs : List (String × Json)) : Json

/-- `llama_index.core.base.llms.types.MessageRole`. -/
inductive MessageRole where
  | system
  | user
  | assistant
  | function
  | tool
  | chatbot
  | model
deriving DecidableEq

/-- `MessageRole(value)`: Python enum construction, `none` models the
`ValueError` raised on an unrecognised value. -/
def messageRoleOfString? (s : String) : Option MessageRole :=
  if s = "system" then some MessageRole.system
  else if s = "user" then some MessageRole.user
  else if s = "assistant" then some MessageRole.assistant
  else if s = "function" then some MessageRole.function
  else if s = "tool" then some MessageRole.tool
  else if s = "chatbot" then some MessageRole.chatbot
  else if s = "model" then some MessageRole.model
  else none

/-- Lookup in a decoded JSON object, i.e. Python `dict.get(k)`
(insertion order preserved, keys unique as produced by `json.loads`). -/
def kvGet (kvs : List (String × Json)) (k : String) : Option Json :=
  (kvs.find? (fun kv => kv.1 == k)).map (fun kv => kv.2)

/-- `get_additional_kwargs(response, exclude)` from `llm_client.py`:
keep the items whose key is not excluded. -/
def get_additional_kwargs (kvs : List (String × Json)) (exclude : List String) : List (String × Json) :=
  kvs.filter (fun kv => !(exclude.contains kv.1))

/-- Python `s.lstrip(chars)`: remove the longest leading run of
characters drawn from `chars` (a character *set*, not an exact marker). -/
def pyLstrip (chars : String) (s : String) : String :=
  String.mk (s.data.dropWhile (fun c => chars.data.contains c))

/-- The char-set argument of `line.lstrip("data: ")` in `stream_chat`. -/
def dataMarker : String := "data: "

/-- The termination sentinel checked by `stream_chat`. -/
def sentinelToken : String := "[DONE]"

/-- One StreamDelta snapshot yielded by `stream_chat`: the fields of the
`ChatResponse(message=ChatMessage(...), delta=..., raw=...,
additional_kwargs=...)` value built at the `yield`. `accumulated` is the
message content (the running `text`), `delta` the increment. -/
structure StreamDelta where
  accumulated : String
  role : MessageRole
  msgKwargs : List (String × Json)
  delta : String
  raw : Json
  respKwargs : List (String × Json)

/-- How a streaming session ends: natural end of input, the `[DONE]`
sentinel `break`, a `json.loads` failure (carrying the string passed to
`json.loads`, i.e. the prefix-stripped line), or a Python dynamic error
while extracting the delta from an ill-shaped frame. -/
inductive StreamEnd where
  | done
  | sentinel
  | malformed (line : String)
  | typeError
deriving DecidableEq

/-- Result of one pass over a line inside `stream_chat`'s loop. -/
inductive LineStep where
  | skip (text : String)
  | emit (d : StreamDelta) (text : String)
  | halt (e : StreamEnd)

/-- `delta = message.get("content", "")` from `stream_chat`: the content
string if present, the empty default if absent, `none` when the stored
value is not a string (Python would then raise on `text += delta`). -/
def deltaOfMessage (mkvs : List (String × Json)) : Option String :=
  match kvGet mkvs ("content") with
  | some (Json.str s) => some s
  | none => some ""
  | some _ => none

/-- The tail of `stream_chat`'s loop body once the delta object `mkvs`
and its `delta` string are known: `text += delta`, then `if message:`
yield the `ChatResponse` snapshot (requiring a valid `role` for the
`MessageRole(...)` construction) else fall through to the next line. -/
def emitOrSkip (text : String) (body : Json) (bkvs mkvs : List (String × Json)) (delta : String) : LineStep :=
  let text2 := text ++ delta
  if mkvs.isEmpty then LineStep.skip text2
  else
    match kvGet mkvs ("role") with
    | some (Json.str r) =>
      match messageRoleOfString? r with
      | some role =>
        LineStep.emit
          { accumulated := text2
            role := role
            msgKwargs := get_additional_kwargs mkvs [("choices"), ("role")]
            delta := delta
            raw := body
            respKwargs := get_additional_kwargs bkvs [("id"), ("object"), ("system_fingerprint"), ("choices")] }
          text2
      | none => LineStep.halt StreamEnd.typeError
    | _ => LineStep.halt StreamEnd.typeError

/-- The body of `stream_chat`'s `for line in response.iter_lines()` loop
(`llm_client.py` lines 135-161), for one line, given the running `text`:
skip empty lines; `line = line.lstrip("data: ")`; `break` on `[DONE]`;
`body = json.loads(line)`;
`message = body.get("choices")[0].get("delta", "")`;
`delta = message.get("content", "")`; `text += delta`;
`if message:` yield the snapshot.  Shapes on which Python would raise
`TypeError` / `AttributeError` / `IndexError` / `ValueError` halt with
`typeError` (in particular a missing or non-object `delta`, whose `.get`
call fails). -/
def processLine (parse : String → Option Json) (text : String) (line : String) : LineStep :=
  if line = "" then LineStep.skip text
  else
    if pyLstrip dataMarker line = sentinelToken then LineStep.halt StreamEnd.sentinel
    else
      match parse (pyLstrip dataMarker line) with
      | none => LineStep.halt (StreamEnd.malformed (pyLstrip dataMarker line))
      | some body =>
        match body with
        | Json.obj bkvs =>
          match kvGet bkvs ("choices") with
          | some (Json.arr (c0 :: _)) =>
            match c0 with
            | Json.obj ckvs =>
              match (kvGet ckvs ("delta")).getD (Json.str ("")) with
              | Json.obj mkvs =>
                match deltaOfMessage mkvs with
                | some delta => emitOrSkip text body bkvs mkvs delta
                | none => LineStep.halt StreamEnd.typeError
              | _ => LineStep.halt StreamEnd.typeError
            | _ => LineStep.halt StreamEnd.typeError
          | _ => LineStep.halt StreamEnd.typeError
        | _ => LineStep.halt StreamEnd.typeError

/-- Observable outcome of one `stream_chat` streaming session: the
yielded StreamDelta snapshots in order, the final accumulated `text`,
and how the session ended. -/
structure StreamOut where
  deltas : List StreamDelta
  finalText : String
  ending : StreamEnd

/-- The loop of `stream_chat`, threading the running `text`. -/
def stream_chat_go (parse : String → Option Json) (text : String) : List String → StreamOut
  | [] => { deltas := [], finalText := text, ending := StreamEnd.done }
  | l :: ls =>
    match processLine parse text l with
    | LineStep.skip t => stream_chat_go parse t ls
    | LineStep.emit d t =>
      let rest := stream_chat_go parse t ls
      { deltas := d :: rest.deltas, finalText := rest.finalText, ending := rest.ending }
    | LineStep.halt e => { deltas := [], finalText := text, ending := e }

/-- `LLMClient.stream_chat` (`llm_client.py` lines 108-161), at the level
of the response-body lines: `text = ""` then the frame loop. -/
def stream_chat (parse : String → Option Json) (lines : List String) : StreamOut :=
  stream_chat_go parse "" lines

/-- `app/api/schema.py` `Message`: one conversation turn of the request. -/
structure Message where
  role : MessageRole
  content : String
deriving DecidableEq

/-- `llama_index` `ChatMessage` as constructed by `api_utils.py`
(role and content only; `additional_kwargs` is left at its default). -/
structure ChatMessage where
  role : MessageRole
  content : String
deriving DecidableEq

/-- A retrieved passage (`NodeWithScore`): consumed only for its text,
the score is preserved in the interface but unused. -/
structure Passage where
  text : String
  score : Rat

/-- `build_context_from_index(index, lastMessage)` (`api_utils.py` lines
9-32), with the retrieval oracle behind
`index.as_retriever(similarity_top_k=2).retrieve` abstracted as
`retrieve`: `context = ""` then `context = context + node.text + " "`
for each node in the returned order. -/
def build_context_from_index (retrieve : String → List Passage) (lastMessage : Message) : String :=
  (retrieve lastMessage.content).foldl (fun context node => context ++ node.text ++ " ") ""

/-- `build_message_sequence(data, context, lastMessage)` (`api_utils.py`
lines 35-57): convert the request messages verbatim, then append the one
synthesized user message with the fixed template. -/
def build_message_sequence (data : List Message) (context : String) (lastMessage : Message) : List ChatMessage :=
  let messages := data.map (fun m => ChatMessage.mk m.role m.content)
  let user_message : ChatMessage :=
    { role := MessageRole.user
      content := "[CONTEXT]: " ++ context ++ " [QUESTION]: " ++ lastMessage.content }
  messages ++ [user_message]

/-- How the client-facing relay stream ends: the upstream generator was
drained to its own ending, or the downstream client was found
disconnected (a silent, early, error-free stop). -/
inductive RelayEnding where
  | upstreamEnded (e : StreamEnd)
  | clientDisconnected
deriving DecidableEq

/-- The loop of `event_generator` (`chat.py` lines 68-73), with `n` the
index of the next `request.is_disconnected()` check: each iteration
pulls one token from the upstream generator, checks liveness, and either
breaks or yields `token.delta`. -/
def event_generator_go (disc : Nat → Bool) : Nat → List StreamDelta → StreamEnd → List String × RelayEnding
  | _, [], e => ([], RelayEnding.upstreamEnded e)
  | n, t :: ts, e =>
    if disc n then ([], RelayEnding.clientDisconnected)
    else
      let rest := event_generator_go disc (n + 1) ts e
      (t.delta :: rest.1, rest.2)

/-- `event_generator` (`chat.py` lines 68-73): relay the upstream
StreamDelta sequence downstream, polling `request.is_disconnected()`
once per pulled token (`disc n` is the answer of the `n`-th poll,
counting from 0). -/
def event_generator (disc : Nat → Bool) (upstream : StreamOut) : List String × RelayEnding :=
  event_generator_go disc 0 upstream.deltas upstream.ending

/-- The two 400-class validation faults of the chat endpoint. -/
inductive ChatError where
  | emptyConversation
  | invalidLastRole
deriving DecidableEq

/-- Network calls the orchestrator can make, in the order performed. -/
inductive CallEvent where
  | retrieveCall
  | inferenceCall
deriving DecidableEq

/-- The `chat` endpoint handler (`chat.py` lines 15-75).  `retrieve` and
`stream` abstract the retrieval oracle and `llm.stream_chat`; the second
component of the result records which network collaborators the handler
reaches, in order.  Mirrors the source: empty-list check, `pop()` of the
last message, role check, `build_context_from_index`,
`build_message_sequence`, `llm.stream_chat`, then the relay generator. -/
def chat (retrieve : String → List Passage) (stream : List ChatMessage → StreamOut)
    (disc : Nat → Bool) (messages : List Message) :
    Except ChatError (List String × RelayEnding) × List CallEvent :=
  match messages.getLast? with
  | none => (Except.error ChatError.emptyConversation, [])
  | some lastMessage =>
    if lastMessage.role ≠ MessageRole.user then (Except.error ChatError.invalidLastRole, [])
    else
      let context := build_context_from_index retrieve lastMessage
      let msgs := build_message_sequence messages.dropLast context lastMessage
      (Except.ok (event_generator disc (stream msgs)), [CallEvent.retrieveCall, CallEvent.inferenceCall])

/-- One `CompletionResponse` yielded by `stream_complete` or
`astream_complete`. -/
structure CompletionResponse where
  delta : String
  text : String
  raw : Json
  kwargs : List (String × Json)

/-- How a completion streaming session ends (`done` / parse failure /
Python dynamic error on a frame whose `response` field is missing or not
a string). -/
inductive CompEnd where
  | done
  | malformed (line : String)
  | typeError
deriving DecidableEq

/-- Observable outcome of one completion streaming session. -/
structure CompletionOut where
  responses : List CompletionResponse
  ending : CompEnd

/-- The loop of `LLMClient.stream_complete` (`llm_client.py` lines
268-286), threading the running `text`: skip empty lines, parse each
line as JSON (no prefix strip, no sentinel check in this variant),
`delta = chunk.get("response")`, `text += delta`, yield
`CompletionResponse(delta=delta, text=text, ...)`. -/
def stream_complete_go (parse : String → Option Json) (text : String) : List String → CompletionOut
  | [] => { responses := [], ending := CompEnd.done }
  | l :: ls =>
    if l = "" then stream_complete_go parse text ls
    else
      match parse l with
      | none => { responses := [], ending := CompEnd.malformed l }
      | some chunk =>
        match chunk with
        | Json.obj ckvs =>
          match kvGet ckvs ("response") with
          | some (Json.str d) =>
            let text2 := text ++ d
            let rest := stream_complete_go parse text2 ls
            { responses :=
                { delta := d, text := text2, raw := chunk
                  kwargs := get_additional_kwargs ckvs [("response")] } :: rest.responses
              ending := rest.ending }
          | _ => { responses := [], ending := CompEnd.typeError }
        | _ => { responses := [], ending := CompEnd.typeError }

/-- `LLMClient.stream_complete`: `text = ""` then the frame loop. -/
def stream_complete (parse : String → Option Json) (lines : List String) : CompletionOut :=
  stream_complete_go parse "" lines

/-- The generator of `LLMClient.astream_complete` (`llm_client.py` lines
301-319), over the same parsed-frame sequence: it keeps no running
`text` and yields `CompletionResponse(delta=delta, text=delta, ...)`,
i.e. the `text` field carries only the current frame's delta. -/
def astream_complete (parse : String → Option Json) : List String → CompletionOut
  | [] => { responses := [], ending := CompEnd.done }
  | l :: ls =>
    if l = "" then astream_complete parse ls
    else
      match parse l with
      | none => { responses := [], ending := CompEnd.malformed l }
      | some chunk =>
        match chunk with
        | Json.obj ckvs =>
          match kvGet ckvs ("response") with
          | some (Json.str d) =>
            let rest := astream_complete parse ls
            { responses :=
                { delta := d, text := d, raw := chunk
                  kwargs := get_additional_kwargs ckvs [("response")] } :: rest.responses
              ending := rest.ending }
          | _ => { responses := [], ending := CompEnd.typeError }
        | _ => { responses := [], ending := CompEnd.typeError }

/-- The accumulation invariant of a StreamDelta sequence: starting from
the running text `prev`, every snapshot's `accumulated` text equals the
previous accumulated text extended by exactly its own `delta`. -/
def accumChain : String → List StreamDelta → Prop
  | _, [] => True
  | prev, d :: ds => d.accumulated = prev ++ d.delta ∧ accumChain d.accumulated ds

/-- Adjacent snapshots have non-decreasing accumulated-text length. -/
def accumLenMono : List StreamDelta → Prop
  | [] => True
  | [_] => True
  | a :: b :: ds => a.accumulated.length ≤ b.accumulated.length ∧ accumLenMono (b :: ds)

/-- A concrete well-formed chat frame: `choices[0].delta` holding role
`assistant` and content `Hel`. -/
def frameA : Json :=
  Json.obj [(("choices"),
    Json.arr [Json.obj [(("delta"),
      Json.obj [(("role"), Json.str ("assistant")), (("content"), Json.str ("Hel"))])]])]

/-- A concrete well-formed chat frame with content `lo!`. -/
def frameB : Json :=
  Json.obj [(("choices"),
    Json.arr [Json.obj [(("delta"),
      Json.obj [(("role"), Json.str ("assistant")), (("content"), Json.str ("lo!"))])]])]

/-- A concrete `json.loads` stand-in for witnesses: decodes the two
marker lines to the frames above and fails on everything else (in
particular on the empty string and on whitespace, which are not valid
JSON documents). -/
def toyParse (s : String) : Option Json :=
  if s = "frameA" then some frameA
  else if s = "frameB" then some frameB
  else none

/-- A concrete completion frame: `{"response": "Hel"}`. -/
def chunkA : Json := Json.obj [(("response"), Json.str ("Hel"))]

/-- A concrete completion frame: `{"response": "lo!"}`. -/
def chunkB : Json := Json.obj [(("response"), Json.str ("lo!"))]

/-- A concrete `json.loads` stand-in for the completion variants. -/
def toyParseResp (s : String) : Option Json :=
  if s = "chunkA" then some chunkA
  else if s = "chunkB" then some chunkB
  else none

/-- A retrieval oracle returning one single passage, for exercising the
context assembler on a one-element result. -/
def oneOracle : String → List Passage := fun _ => [{ text := "A", score := 1 }]

/-- A concrete user question message. -/
def qA : Message := { role := MessageRole.user, content := "q" }

/-- The retrieval oracle of the spec's context-assembly example. -/
def parisOracle : String → List Passage := fun _ =>
  [{ text := "Paris is the capital of France.", score := (9 : Rat) / 10 },
   { text := "France is in Europe.", score := (7 : Rat) / 10 }]

/-- The question of the spec's context-assembly example. -/
def parisQuestion : Message :=
  { role := MessageRole.user, content := "What is the capital of France?" }

/-- The synthesized content the spec's example expects (note the two
spaces before `[QUESTION]`). -/
def parisExpected : String :=
  "[CONTEXT]: Paris is the capital of France. France is in Europe.  [QUESTION]: What is the capital of France?"

/-- A throwaway StreamDelta snapshot with the given delta text. -/
def mkTok (a d : String) : StreamDelta :=
  { accumulated := a, role := MessageRole.assistant, msgKwargs := [], delta := d
    raw := Json.null, respKwargs := [] }

/-- Five upstream StreamDelta snapshots, for the disconnect witness. -/
def fiveTokens : List StreamDelta :=
  [mkTok ("t1") ("t1"), mkTok ("t1t2") ("t2"), mkTok ("t1t2t3") ("t3"),
   mkTok ("t1t2t3t4") ("t4"), mkTok ("t1t2t3t4t5") ("t5")]

/-- A skipped line never changes the running text: the empty-line branch
keeps it, and the empty-delta branch appends the empty default delta. -/
theorem emitOrSkip_skip (text : String) (body : Json) (bkvs mkvs : List (String × Json))
    (delta t : String) (hd : deltaOfMessage mkvs = some delta)
    (h : emitOrSkip text body bkvs mkvs delta = LineStep.skip t) : t = text := by
  unfold emitOrSkip at h
  split at h
  next he =>
    cases h
    have hm : mkvs = [] := by simpa using he
    subst hm
    have hd2 : (some "" : Option String) = some delta := hd
    injection hd2 with h3
    subst h3
    exact String.append_empty text
  next he =>
    split at h <;> first
      | cases h
      | (split at h <;> cases h)

/-- An emitted snapshot records the updated text as its accumulated
text, and that update is exactly the snapshot's own delta. -/
theorem emitOrSkip_emit (text : String) (body : Json) (bkvs mkvs : List (String × Json))
    (delta : String) (d : StreamDelta) (t : String)
    (h : emitOrSkip text body bkvs mkvs delta = LineStep.emit d t) :
    d.accumulated = t ∧ t = text ++ d.delta := by
  unfold emitOrSkip at h
  split at h
  next => cases h
  next =>
    split at h
    · split at h
      · cases h; exact ⟨rfl, rfl⟩
      · cases h
    · cases h

/-- `emitOrSkip` can only halt with the `typeError` ending. -/
theorem emitOrSkip_halt (text : String) (body : Json) (bkvs mkvs : List (String × Json))
    (delta : String) (e : StreamEnd)
    (h : emitOrSkip text body bkvs mkvs delta = LineStep.halt e) : e = StreamEnd.typeError := by
  unfold emitOrSkip at h
  split at h
  next => cases h
  next =>
    split at h
    · split at h
      · cases h
      · cases h; rfl
    · cases h; rfl

/-- A line that `stream_chat`'s loop skips leaves the running text
unchanged. -/
theorem processLine_skip (parse : String → Option Json) (text l t : String)
    (h : processLine parse text l = LineStep.skip t) : t = text := by
  unfold processLine at h
  split at h
  · cases h; rfl
  · split at h
    · cases h
    · split at h
      · cases h
      · split at h <;> try (cases h)
        split at h <;> try (cases h)
        split at h <;> try (cases h)
        split at h <;> try (cases h)
        split at h <;> try (cases h)
        exact emitOrSkip_skip _ _ _ _ _ _ (by assumption) h

/-- A line on which `stream_chat` yields produces a snapshot whose
accumulated text is the updated running text, obtained by appending the
snapshot's own delta. -/
theorem processLine_emit (parse : String → Option Json) (text l : String) (d : StreamDelta)
    (t : String) (h : processLine parse text l = LineStep.emit d t) :
    d.accumulated = t ∧ t = text ++ d.delta := by
  unfold processLine at h
  split at h
  · cases h
  · split at h
    · cases h
    · split at h
      · cases h
      · split at h <;> try (cases h)
        split at h <;> try (cases h)
        split at h <;> try (cases h)
        split at h <;> try (cases h)
        split at h <;> try (cases h)
        exact emitOrSkip_emit _ _ _ _ _ _ _ h

/-- `stream_chat`'s loop never halts with the `done` ending: `done` only
arises by exhausting the input lines. -/
theorem processLine_no_halt_done (parse : String → Option Json) (text l : String) :
    processLine parse text l ≠ LineStep.halt StreamEnd.done := by
  intro h
  unfold processLine at h
  split at h <;> try (cases h)
  split at h <;> try (cases h)
  split at h <;> try (cases h)
  split at h <;> try (cases h)
  split at h <;> try (cases h)
  split at h <;> try (cases h)
  split at h <;> try (cases h)
  split at h <;> try (cases h)
  exact absurd (emitOrSkip_halt _ _ _ _ _ _ h) (by decide)

/-- Starting from any running text, the snapshots yielded by the rest of
a session satisfy the accumulation chain invariant. -/
theorem stream_chat_go_accumChain (parse : String → Option Json) :
    ∀ (ls : List String) (text : String), accumChain text (stream_chat_go parse text ls).deltas := by
  intro ls
  induction ls with
  | nil => intro text; exact trivial
  | cons l ls ih =>
    intro text
    cases hp : processLine parse text l with
    | skip t =>
      have ht := processLine_skip parse text l t hp
      subst ht
      simp only [stream_chat_go, hp]
      exact ih t
    | emit d t =>
      obtain ⟨h1, h2⟩ := processLine_emit parse text l d t hp
      simp only [stream_chat_go, hp]
      show d.accumulated = text ++ d.delta ∧ accumChain d.accumulated (stream_chat_go parse t ls).deltas
      refine ⟨by rw [h1, h2], ?_⟩
      rw [h1]
      exact ih t
    | halt e =>
      simp only [stream_chat_go, hp]
      exact trivial

/-- The accumulation chain forces non-decreasing accumulated length. -/
theorem accumChain_lenMono : ∀ (ds : List StreamDelta) (prev : String),
    accumChain prev ds → accumLenMono ds
  | [], _, _ => trivial
  | [_], _, _ => trivial
  | a :: b :: ds, _, h => by
    show a.accumulated.length ≤ b.accumulated.length ∧ accumLenMono (b :: ds)
    have hb : b.accumulated = a.accumulated ++ b.delta := h.2.1
    refine ⟨?_, accumChain_lenMono (b :: ds) a.accumulated h.2⟩
    rw [hb, String.length_append]
    exact Nat.le_add_right _ _

/-- Claim C1: in every `stream_chat` session (over any line sequence and
any `json.loads` behaviour), the yielded StreamDelta snapshots satisfy
`accumulated_text[i] == accumulated_text[i-1] + delta_text[i]` with the
chain starting from the empty initial `text` (so the first snapshot's
accumulated text is exactly its delta), and the accumulated-text length
is non-decreasing across the session. -/
theorem stream_chat_monotonic_accumulation (parse : String → Option Json) (lines : List String) :
    accumChain "" (stream_chat parse lines).deltas ∧ accumLenMono (stream_chat parse lines).deltas :=
  ⟨stream_chat_go_accumChain parse lines "",
   accumChain_lenMono (stream_chat_go parse "" lines).deltas "" (stream_chat_go_accumChain parse lines "")⟩

/-- If a run of `stream_chat`'s loop over `pre` ends by exhausting the
input (`done`), appending further lines continues the session from the
reached text, with the yielded snapshots concatenated. -/
theorem stream_chat_go_append (parse : String → Option Json) :
    ∀ (pre : List String) (text : String),
      (stream_chat_go parse text pre).ending = StreamEnd.done →
      ∀ (rest : List String),
        stream_chat_go parse text (pre ++ rest) =
          { deltas := (stream_chat_go parse text pre).deltas ++
              (stream_chat_go parse (stream_chat_go parse text pre).finalText rest).deltas,
            finalText := (stream_chat_go parse (stream_chat_go parse text pre).finalText rest).finalText,
            ending := (stream_chat_go parse (stream_chat_go parse text pre).finalText rest).ending } := by
  intro pre
  induction pre with
  | nil =>
    intro text _ rest
    simp [stream_chat_go]
  | cons l pre ih =>
    intro text hdone rest
    cases hp : processLine parse text l with
    | skip t =>
      have hdone2 : (stream_chat_go parse t pre).ending = StreamEnd.done := by
        simpa [stream_chat_go, hp] using hdone
      simp only [List.cons_append, stream_chat_go, hp]
      exact ih t hdone2 rest
    | emit d t =>
      have hdone2 : (stream_chat_go parse t pre).ending = StreamEnd.done := by
        simpa [stream_chat_go, hp] using hdone
      simp only [List.cons_append, stream_chat_go, hp, List.append_eq]
      rw [ih t hdone2 rest]
    | halt e =>
      exfalso
      have he : e = StreamEnd.done := by simpa [stream_chat_go, hp] using hdone
      subst he
      exact processLine_no_halt_done parse text l hp

/-- Claim C2: if the lines before `l` are fully consumed without ending
the session and `l` prefix-strips to the `[DONE]` sentinel, then the
session over `pre ++ l :: post` yields exactly the snapshots of the
frames before the sentinel and ends with the (successful) `sentinel`
ending, for every suffix `post` — so no line after the sentinel is
consumed or parsed. -/
theorem stream_chat_sentinel_termination (parse : String → Option Json)
    (pre : List String) (l : String) (post : List String)
    (hpre : (stream_chat parse pre).ending = StreamEnd.done)
    (hl : pyLstrip dataMarker l = sentinelToken) :
    stream_chat parse (pre ++ l :: post) =
      { deltas := (stream_chat parse pre).deltas,
        finalText := (stream_chat parse pre).finalText,
        ending := StreamEnd.sentinel } := by
  have hlne : l ≠ "" := by
    intro he
    subst he
    exact absurd hl (by decide)
  unfold stream_chat at *
  rw [stream_chat_go_append parse pre "" hpre (l :: post)]
  have hp : processLine parse (stream_chat_go parse "" pre).finalText l
      = LineStep.halt StreamEnd.sentinel := by
    unfold processLine
    rw [if_neg hlne, if_pos hl]
  simp [stream_chat_go, hp]

/-- Witness for C2: one well-formed frame, then a `data: `-prefixed
sentinel line, then a trailing well-formed frame that is not consumed. -/
theorem stream_chat_sentinel_termination_witness :
    (stream_chat toyParse [("frameA")]).ending = StreamEnd.done ∧
    pyLstrip dataMarker ("data: [DONE]") = sentinelToken ∧
    stream_chat toyParse ([("frameA")] ++ ("data: [DONE]") :: [("frameB")]) =
      { deltas := (stream_chat toyParse [("frameA")]).deltas,
        finalText := (stream_chat toyParse [("frameA")]).finalText,
        ending := StreamEnd.sentinel } :=
  ⟨by decide, by decide,
   stream_chat_sentinel_termination toyParse [("frameA")] ("data: [DONE]") [("frameB")]
     (by decide) (by decide)⟩

/-- Amended claim C3: after `n` fully-consumed well-formed frames, an
unparseable line aborts the session with a MalformedFrameError whose
payload is the *prefix-stripped* form of the offending line (the source
reassigns `line = line.lstrip("data: ")` before `json.loads`), exactly
the `n` earlier StreamDelta values are yielded, and no later line is
consumed, for every suffix `post`. -/
theorem stream_chat_malformed_abort (parse : String → Option Json)
    (pre : List String) (l : String) (post : List String)
    (hpre : (stream_chat parse pre).ending = StreamEnd.done)
    (hne : l ≠ "")
    (hsent : pyLstrip dataMarker l ≠ sentinelToken)
    (hparse : parse (pyLstrip dataMarker l) = none) :
    stream_chat parse (pre ++ l :: post) =
      { deltas := (stream_chat parse pre).deltas,
        finalText := (stream_chat parse pre).finalText,
        ending := StreamEnd.malformed (pyLstrip dataMarker l) } := by
  unfold stream_chat at *
  rw [stream_chat_go_append parse pre "" hpre (l :: post)]
  have hp : processLine parse (stream_chat_go parse "" pre).finalText l
      = LineStep.halt (StreamEnd.malformed (pyLstrip dataMarker l)) := by
    unfold processLine
    rw [if_neg hne, if_neg hsent, hparse]
  simp [stream_chat_go, hp]

/-- Counterexample for C3 as stated: after two well-formed frames the
unparsable line `data: %%` yields exactly two StreamDelta values and
aborts, but the error payload is the prefix-stripped remainder `%%`,
not the offending raw line `data: %%`. -/
theorem stream_chat_malformed_raw_line_counterexample :
    (stream_chat toyParse [("frameA"), ("frameB"), ("data: %%")]).ending
        = StreamEnd.malformed ("%%") ∧
    (stream_chat toyParse [("frameA"), ("frameB"), ("data: %%")]).ending
        ≠ StreamEnd.malformed ("data: %%") ∧
    (stream_chat toyParse [("frameA"), ("frameB"), ("data: %%")]).deltas.length = 2 :=
  ⟨by decide, by decide, by decide⟩

/-- Witness for the amended C3: two well-formed frames, the unparsable
line, and a trailing well-formed frame that is not consumed. -/
theorem stream_chat_malformed_abort_witness :
    (stream_chat toyParse [("frameA"), ("frameB")]).ending = StreamEnd.done ∧
    ("data: %%") ≠ "" ∧
    pyLstrip dataMarker ("data: %%") ≠ sentinelToken ∧
    toyParse (pyLstrip dataMarker ("data: %%")) = none ∧
    stream_chat toyParse ([("frameA"), ("frameB")] ++ ("data: %%") :: [("frameB")]) =
      { deltas := (stream_chat toyParse [("frameA"), ("frameB")]).deltas,
        finalText := (stream_chat toyParse [("frameA"), ("frameB")]).finalText,
        ending := StreamEnd.malformed (pyLstrip dataMarker ("data: %%")) } :=
  ⟨by decide, by decide, by decide, rfl,
   stream_chat_malformed_abort toyParse [("frameA"), ("frameB")] ("data: %%") [("frameB")]
     (by decide) (by decide) (by decide) rfl⟩

/-- If the `n`-th and later liveness polls report the client gone after
`k` open polls, the relay loop forwards exactly the first `k` deltas and
stops with a silent client-disconnected ending. -/
theorem event_generator_go_disconnect :
    ∀ (ds : List StreamDelta) (disc : Nat → Bool) (n k : Nat) (e : StreamEnd),
      k < ds.length → (∀ i, disc (n + i) = decide (k ≤ i)) →
      event_generator_go disc n ds e
        = ((ds.take k).map StreamDelta.delta, RelayEnding.clientDisconnected) := by
  intro ds
  induction ds with
  | nil =>
    intro disc n k e hk _
    exact absurd hk (by simp)
  | cons t ts ih =>
    intro disc n k e hk hdisc
    cases k with
    | zero =>
      have h0 : disc n = true := by
        have h3 := hdisc 0
        rw [Nat.add_zero] at h3
        rw [h3]
        exact decide_eq_true (Nat.le_refl 0)
      simp [event_generator_go, h0]
    | succ k =>
      have h0 : disc n = false := by
        have h3 := hdisc 0
        rw [Nat.add_zero] at h3
        rw [h3]
        exact decide_eq_false (by omega)
      have hk2 : k < ts.length := by
        have := hk
        simp only [List.length_cons] at this
        omega
      have hdisc2 : ∀ i, disc ((n + 1) + i) = decide (k ≤ i) := by
        intro i
        have h3 := hdisc (i + 1)
        have h4 : n + (i + 1) = (n + 1) + i := by omega
        rw [h4] at h3
        rw [h3]
        exact decide_eq_decide.mpr (by omega)
      have ihh := ih disc (n + 1) k e hk2 hdisc2
      simp [event_generator_go, h0, ihh]

/-- Claim C4: with upstream producing the StreamDelta sequence `ds` and
the downstream connection reported closed from the `k+1`-th liveness
poll onward (`k < ds.length`), the relay generator forwards exactly the
first `k` `delta_text` chunks in upstream order and ends with the
silent `clientDisconnected` ending — a normal termination, not an error.
The second conjunct shows the outcome is the same for every upstream
continuation beyond the `k+1` pulled snapshots (and any upstream
ending), i.e. nothing past the disconnection point is consumed. -/
theorem event_generator_disconnect (ds : List StreamDelta) (ft : String) (e : StreamEnd)
    (k : Nat) (hk : k < ds.length) :
    event_generator (fun i => decide (k ≤ i)) { deltas := ds, finalText := ft, ending := e }
        = ((ds.take k).map StreamDelta.delta, RelayEnding.clientDisconnected)
    ∧ ∀ (extra : List StreamDelta) (ft2 : String) (e2 : StreamEnd),
        event_generator (fun i => decide (k ≤ i))
            { deltas := ds.take (k + 1) ++ extra, finalText := ft2, ending := e2 }
          = ((ds.take k).map StreamDelta.delta, RelayEnding.clientDisconnected) := by
  have hd : ∀ i, (fun i => decide (k ≤ i)) (0 + i) = decide (k ≤ i) := by
    intro i
    rw [Nat.zero_add]
  constructor
  · exact event_generator_go_disconnect ds _ 0 k e hk hd
  · intro extra ft2 e2
    have hlen : k < (ds.take (k + 1) ++ extra).length := by
      rw [List.length_append, List.length_take]
      omega
    have heq : (ds.take (k + 1) ++ extra).take k = ds.take k := by
      rw [List.take_append_of_le_length, List.take_take, Nat.min_eq_left (by omega)]
      rw [List.length_take]
      omega
    have h5 := event_generator_go_disconnect (ds.take (k + 1) ++ extra)
      (fun i => decide (k ≤ i)) 0 k e2 hlen hd
    rw [heq] at h5
    exact h5

/-- Witness for C4: five upstream deltas, disconnect reported from the
third poll onward, exactly two chunks relayed. -/
theorem event_generator_disconnect_witness :
    2 < fiveTokens.length ∧
    event_generator (fun i => decide (2 ≤ i))
        { deltas := fiveTokens, finalText := "t1t2t3t4t5", ending := StreamEnd.done }
      = ((fiveTokens.take 2).map StreamDelta.delta, RelayEnding.clientDisconnected) :=
  ⟨by decide,
   (event_generator_disconnect fiveTokens ("t1t2t3t4t5") StreamEnd.done 2 (by decide)).1⟩

/-- Claim C5: on the empty conversation the orchestrator fails with the
empty-conversation fault and records no call event — for every retrieval
oracle, inference client and liveness behaviour, so neither collaborator
is ever consulted on this path. -/
theorem chat_empty_conversation (retrieve : String → List Passage)
    (stream : List ChatMessage → StreamOut) (disc : Nat → Bool) :
    chat retrieve stream disc [] = (Except.error ChatError.emptyConversation, []) := rfl

/-- Claim C6: for a non-empty conversation (last message `last`), the
orchestrator fails with the last-role fault exactly when `last.role` is
not `user`; when it is `user`, validation passes and the handler reaches
the streaming stage (an `ok` outcome in this model), regardless of the
roles of earlier messages. -/
theorem chat_last_role_check (retrieve : String → List Passage)
    (stream : List ChatMessage → StreamOut) (disc : Nat → Bool)
    (messages : List Message) (last : Message)
    (h : messages.getLast? = some last) :
    ((chat retrieve stream disc messages).1 = Except.error ChatError.invalidLastRole
        ↔ last.role ≠ MessageRole.user)
    ∧ (last.role = MessageRole.user →
        ∃ out, (chat retrieve stream disc messages).1 = Except.ok out) := by
  simp only [chat, h]
  by_cases hr : last.role = MessageRole.user
  · rw [if_neg (fun hn => hn hr)]
    exact ⟨⟨fun hc => Except.noConfusion hc, fun hr2 => absurd hr hr2⟩, fun _ => ⟨_, rfl⟩⟩
  · rw [if_pos hr]
    exact ⟨⟨fun _ => hr, fun _ => rfl⟩, fun hu => absurd hu hr⟩

/-- Witness for C6: a two-message conversation whose first message is
from the assistant and whose last message is from the user is accepted
past validation. -/
theorem chat_last_role_check_witness :
    ([{ role := MessageRole.assistant, content := "a" },
      { role := MessageRole.user, content := "q" }] : List Message).getLast?
        = some { role := MessageRole.user, content := "q" } ∧
    (((chat (fun _ => []) (fun _ => { deltas := [], finalText := "", ending := StreamEnd.done })
        (fun _ => false)
        [{ role := MessageRole.assistant, content := "a" },
         { role := MessageRole.user, content := "q" }]).1
          = Except.error ChatError.invalidLastRole
        ↔ ({ role := MessageRole.user, content := "q" } : Message).role ≠ MessageRole.user)
    ∧ (({ role := MessageRole.user, content := "q" } : Message).role = MessageRole.user →
        ∃ out, (chat (fun _ => []) (fun _ => { deltas := [], finalText := "", ending := StreamEnd.done })
          (fun _ => false)
          [{ role := MessageRole.assistant, content := "a" },
           { role := MessageRole.user, content := "q" }]).1 = Except.ok out)) :=
  ⟨by decide,
   chat_last_role_check (fun _ => []) (fun _ => { deltas := [], finalText := "", ending := StreamEnd.done })
     (fun _ => false)
     [{ role := MessageRole.assistant, content := "a" },
      { role := MessageRole.user, content := "q" }]
     { role := MessageRole.user, content := "q" } (by decide)⟩

/-- Concatenation with a trailing separator after every element. -/
def joinAll : List String → String
  | [] => ""
  | s :: rest => s ++ joinAll rest

/-- The context-assembler fold equals `joinAll` of the per-passage
`text ++ " "` pieces, from any accumulator. -/
theorem build_context_foldl (nodes : List Passage) :
    ∀ (acc : String),
      nodes.foldl (fun context node => context ++ node.text ++ " ") acc
        = acc ++ joinAll (nodes.map (fun p => p.text ++ " ")) := by
  induction nodes with
  | nil =>
    intro acc
    simp [joinAll, String.append_empty]
  | cons p ps ih =>
    intro acc
    simp only [List.foldl_cons, List.map_cons, joinAll]
    rw [ih, String.append_assoc, String.append_assoc, String.append_assoc]

/-- Amended claim C7: `build_context_from_index` returns the passage
texts concatenated in exactly the oracle's order with a single space
appended *after each text* (so the result carries one trailing space
whenever at least one passage is returned), with no deduplication, no
truncation and no re-ranking; for an oracle returning zero passages the
result is the empty string and no error is raised. -/
theorem build_context_trailing_space :
    (∀ (retrieve : String → List Passage) (m : Message),
        build_context_from_index retrieve m
          = joinAll ((retrieve m.content).map (fun p => p.text ++ " ")))
    ∧ (∀ (m : Message), build_context_from_index (fun _ => []) m = "") := by
  constructor
  · intro retrieve m
    unfold build_context_from_index
    rw [build_context_foldl]
    rfl
  · intro m
    rfl

/-- Counterexample for C7 as stated: on a single passage `A` the result
is `A ` with a trailing space, not the plain single-space-separated
concatenation `A`. -/
theorem build_context_not_single_space :
    build_context_from_index oneOracle qA = "A " ∧ ("A " : String) ≠ "A" :=
  ⟨rfl, by decide⟩

/-- Claim C8: `build_message_sequence` copies the prior messages
verbatim (roles and contents preserved in order, length grown by exactly
one) and appends exactly one user message whose content is the fixed
template `[CONTEXT]: {context} [QUESTION]: {question}`; on the spec's
two-passage example composed with the context assembler, the synthesized
content is exactly the expected string (with the double space produced
by the context's trailing space). -/
theorem build_message_sequence_spec :
    (∀ (data : List Message) (context : String) (last : Message),
        (build_message_sequence data context last).map ChatMessage.role
            = data.map Message.role ++ [MessageRole.user]
        ∧ (build_message_sequence data context last).map ChatMessage.content
            = data.map Message.content
              ++ ["[CONTEXT]: " ++ context ++ " [QUESTION]: " ++ last.content])
    ∧ (build_message_sequence []
          (build_context_from_index parisOracle parisQuestion) parisQuestion).getLast?
        = some { role := MessageRole.user, content := parisExpected } := by
  constructor
  · intro data context last
    constructor
    · simp [build_message_sequence]
    · simp [build_message_sequence]
  · rfl

/-- Amended claim C9: a genuinely empty line is ignored — it produces no
StreamDelta, does not terminate the stream, raises no error, and parsing
continues with the next line.  But a non-empty line consisting only of
whitespace is *not* ignored: it survives the `if line:` truthiness check,
its leading spaces are removed by the `lstrip("data: ")` character-set
strip, and the remaining whitespace-only string is handed to
`json.loads`, which fails, aborting the session with a
MalformedFrameError. -/
theorem stream_chat_whitespace_lines :
    (∀ (parse : String → Option Json) (ls : List String),
        stream_chat parse (("") :: ls) = stream_chat parse ls)
    ∧ (∀ (parse : String → Option Json) (w : String) (ls : List String),
        w ≠ "" → (∀ c ∈ w.data, c.isWhitespace = true) →
        parse (pyLstrip dataMarker w) = none →
        stream_chat parse (w :: ls)
          = { deltas := [], finalText := "",
              ending := StreamEnd.malformed (pyLstrip dataMarker w) }) := by
  constructor
  · intro parse ls
    rfl
  · intro parse w ls hne hws hparse
    have hsub : (pyLstrip dataMarker w).data.Sublist w.data := by
      show (w.data.dropWhile (fun c => dataMarker.data.contains c)).Sublist w.data
      exact List.dropWhile_sublist _
    have hsent : pyLstrip dataMarker w ≠ sentinelToken := by
      intro he
      have hmem : '[' ∈ (pyLstrip dataMarker w).data := by
        rw [he]
        decide
      have hbr : '[' ∈ w.data := hsub.subset hmem
      exact absurd (hws '[' hbr) (by decide)
    have hp : processLine parse "" w
        = LineStep.halt (StreamEnd.malformed (pyLstrip dataMarker w)) := by
      unfold processLine
      rw [if_neg hne, if_neg hsent, hparse]
    unfold stream_chat
    simp [stream_chat_go, hp]

/-- Counterexample for C9 as stated: the single-space line is whitespace
only, yet the session neither ignores it nor continues — it aborts with
a MalformedFrameError (the space is stripped and the empty remainder is
not parseable), instead of ending cleanly with no events. -/
theorem stream_chat_space_line_not_ignored :
    stream_chat toyParse [(" ")]
        = { deltas := [], finalText := "", ending := StreamEnd.malformed ("") }
    ∧ StreamEnd.malformed ("") ≠ StreamEnd.done :=
  ⟨rfl, by decide⟩

/-- Witness for the amended C9 at the single-space line. -/
theorem stream_chat_whitespace_lines_witness :
    (" ") ≠ "" ∧ (∀ c ∈ (" " : String).data, c.isWhitespace = true) ∧
    toyParse (pyLstrip dataMarker (" ")) = none ∧
    stream_chat toyParse ((" ") :: [])
      = { deltas := [], finalText := "",
          ending := StreamEnd.malformed (pyLstrip dataMarker (" ")) } :=
  ⟨by decide, by decide, rfl,
   stream_chat_whitespace_lines.2 toyParse (" ") [] (by decide) (by decide) rfl⟩

/-- Claim C10 (code bug): over the same two parsed frames (`response`
deltas `Hel` then `lo!`), the synchronous `stream_complete` yields
`text` fields `Hel`, `Hello!` — each the concatenation of the deltas so
far — while `astream_complete` yields `Hel`, `lo!` — only the current
delta.  The two variants agree on the `delta` fields but produce
different `text` sequences, refuting their equivalence: the async
variant never accumulates. -/
theorem stream_complete_async_divergence :
    (stream_complete toyParseResp [("chunkA"), ("chunkB")]).responses.map CompletionResponse.text
        = [("Hel"), ("Hello!")]
    ∧ (astream_complete toyParseResp [("chunkA"), ("chunkB")]).responses.map CompletionResponse.text
        = [("Hel"), ("lo!")]
    ∧ (stream_complete toyParseResp [("chunkA"), ("chunkB")]).responses.map CompletionResponse.delta
        = (astream_complete toyParseResp [("chunkA"), ("chunkB")]).responses.map CompletionResponse.delta
    ∧ ([("Hel"), ("Hello!")] : List String) ≠ [("Hel"), ("lo!")] :=
  ⟨rfl, rfl, rfl, by decide⟩
